import Mathlib

/-!
Shallow embedding of the two backend source files of this repository:
`backend/main.py` (multi-scale template matching with a debounced
per-label counter) and `backend/optimizer.py` (route optimization and
CO2-emission HTTP handlers), together with theorems settling the frozen
claims about them.

Conventions of the embedding:
* Python floats are modelled by exact rationals `ℚ` except where the
  source computes a square root (`math.sqrt` in `get_dist`), which is
  modelled by `Real.sqrt` on the rational radicand.
* An image is represented by its dimension pair; the pixel content of a
  frame/template pair enters `find_match` only through the abstract
  function `tm : ℚ → ℚ × Loc` that returns, for a scale factor, the
  `(max_val, max_loc)` pair produced by `cv2.matchTemplate` +
  `cv2.minMaxLoc` on the frame resized by that factor.  `cv2.resize`
  with `fx = fy = scale` produces dimensions `cvRound (dim * scale)`
  (OpenCV rounds half to even).
* Exceptions are modelled by `Except`.
-/

/-- `THRESHOLD = 0.65` from `backend/main.py`. -/
def THRESHOLD : ℚ := 65 / 100

/-- `COOLDOWN_TIME = 2` (seconds) from `backend/main.py`. -/
def COOLDOWN_TIME : ℚ := 2

/-- OpenCV `cvRound`: round half to even, used by `cv2.resize` when
computing the destination size from `fx`/`fy`. -/
def cvRound (q : ℚ) : ℤ :=
  let f := ⌊q⌋
  let r := q - f
  if r < 1 / 2 then f
  else if 1 / 2 < r then f + 1
  else if f % 2 = 0 then f else f + 1

/-- `np.linspace a b n`: `n` evenly spaced samples from `a` to `b`
inclusive. -/
def linspace (a b : ℚ) (n : ℕ) : List ℚ :=
  (List.range n).map (fun i => a + (b - a) * i / ((n : ℚ) - 1))

/-- A pixel location, as returned by `cv2.minMaxLoc`. -/
abbrev Loc := ℤ × ℤ

/-- The body of the `if found is None or max_val > found[0]` update in
`find_match`: keep the running best `(max_val, max_loc, scale)` triple,
replacing it only on a strictly greater score. -/
def updateBest (tm : ℚ → ℚ × Loc) (found : Option (ℚ × Loc × ℚ)) (s : ℚ) :
    Option (ℚ × Loc × ℚ) :=
  match found with
  | none => some ((tm s).1, (tm s).2, s)
  | some f => if f.1 < (tm s).1 then some ((tm s).1, (tm s).2, s) else some f

/-- `find_match(frame_gray, template)` from `backend/main.py`:
`fh × fw` are the frame dimensions, `th × tw` the template dimensions
(`t_h, t_w = template.shape[:2]`), and `tm` the per-scale matching
result (see module docstring).  Scales whose resized frame is smaller
than the template in either dimension are skipped (`continue`). -/
def find_match (fh fw th tw : ℕ) (tm : ℚ → ℚ × Loc) : Option (ℚ × Loc × ℚ) :=
  (linspace (1 / 2) (3 / 2) 5).foldl
    (fun found s =>
      if cvRound ((fh : ℚ) * s) < (th : ℤ) ∨ cvRound ((fw : ℚ) * s) < (tw : ℤ) then found
      else updateBest tm found s)
    none

/-- The scale factors that `find_match` does not skip. -/
def keptScales (fh fw th tw : ℕ) : List ℚ :=
  (linspace (1 / 2) (3 / 2) 5).filter
    (fun s =>
      decide (¬ (cvRound ((fh : ℚ) * s) < (th : ℤ) ∨ cvRound ((fw : ℚ) * s) < (tw : ℤ))))

/-- Folding `updateBest` over a list of (non-skipped) scales. -/
def bestOf (tm : ℚ → ℚ × Loc) (l : List ℚ) : Option (ℚ × Loc × ℚ) :=
  l.foldl (updateBest tm) none

/-- Invariant of the `find_match` fold: after processing the scales in
`done`, the accumulator is `none` iff `done` is empty, and otherwise it
holds the first-encountered maximal-score triple of `done`. -/
def BestInv (tm : ℚ → ℚ × Loc) (done : List ℚ) (acc : Option (ℚ × Loc × ℚ)) : Prop :=
  (acc = none ↔ done = []) ∧
  ∀ v l s, acc = some (v, l, s) →
    (v, l) = tm s ∧
    ∃ t1 t2, done = t1 ++ s :: t2 ∧
      (∀ y ∈ t1, (tm y).1 < v) ∧ (∀ y ∈ t2, (tm y).1 ≤ v)

/-- Per-label counter state of `backend/main.py`: the module-level
`count_x` / `last_seen_x` pair (both initialized to `0`). -/
structure CounterState where
  count : ℕ
  last_seen : ℚ
deriving DecidableEq

/-- One pass of the per-label counting logic of the acquisition loop:
`score` is `match[0]` when a match tuple was returned, `none` otherwise.
The count increments (and `last_seen` is set to `now`) only when the
score strictly exceeds `THRESHOLD` and `now - last_seen > COOLDOWN_TIME`. -/
def maybeCount (s : CounterState) (score : Option ℚ) (now : ℚ) : CounterState :=
  match score with
  | none => s
  | some v =>
    if THRESHOLD < v then
      if COOLDOWN_TIME < now - s.last_seen then ⟨s.count + 1, now⟩ else s
    else s

/-- Iterated counting over a list of `(score, time)` events. -/
def runCounter (s : CounterState) : List (Option ℚ × ℚ) → CounterState
  | [] => s
  | (sc, t) :: rest => runCounter (maybeCount s sc t) rest

/-- The times at which the count increments during a run. -/
def incTimes (s : CounterState) : List (Option ℚ × ℚ) → List ℚ
  | [] => []
  | (sc, t) :: rest =>
    if s.count < (maybeCount s sc t).count then t :: incTimes (maybeCount s sc t) rest
    else incTimes (maybeCount s sc t) rest

/-- A qualifying match (score `1 > THRESHOLD`) repeated every `0.5 s`
for `10` seconds: 20 samples at wall-clock times `100.0, 100.5, …,
109.5` (the shift by `100` models the wall clock `time.time()` being
far past the `last_seen = 0` initialization). -/
def ticks20 : List (Option ℚ × ℚ) :=
  (List.range 20).map (fun k => (some 1, 100 + (k : ℚ) / 2))

/-- `load_and_prep(path)` from `backend/main.py`, with the file read
modelled by its result: `none` when `cv2.imread` failed (the error is
printed and `None` returned), otherwise the `(height, width)` shape.
Templates wider than 200 px are downscaled by `scale = 200 / width` on
both axes. -/
def load_and_prep (img : Option (ℕ × ℕ)) : Option (ℕ × ℕ) :=
  match img with
  | none => none
  | some (h, w) =>
    if 200 < w then
      some ((cvRound ((h : ℚ) * (200 / (w : ℚ)))).toNat,
            (cvRound ((w : ℚ) * (200 / (w : ℚ)))).toNat)
    else some (h, w)

/-- `find_match(gray, template)` as called by the acquisition loop,
where `template` may be `None` (failed load).  On `None` the attribute
access `template.shape` raises `AttributeError`. -/
def find_match_checked (fh fw : ℕ) (template : Option (ℕ × ℕ)) (tm : ℚ → ℚ × Loc) :
    Except String (Option (ℚ × Loc × ℚ)) :=
  match template with
  | none => .error "AttributeError"
  | some (th, tw) => .ok (find_match fh fw th tw tm)

/-- The matching/counting part of one acquisition-loop iteration (a
successfully fetched and decoded frame): object A is processed first
(its counter mutation takes effect immediately), then object B; a
raised exception aborts the iteration but keeps the mutations already
made, so the error carries the counter states at the raise point. -/
def loop_iter (tA tB : Option (ℕ × ℕ)) (fh fw : ℕ) (tmA tmB : ℚ → ℚ × Loc)
    (now : ℚ) (sA sB : CounterState) :
    Except (String × CounterState × CounterState) (CounterState × CounterState) :=
  match find_match_checked fh fw tA tmA with
  | .error e => .error (e, sA, sB)
  | .ok mA =>
    match find_match_checked fh fw tB tmB with
    | .error e => .error (e, maybeCount sA (mA.map (fun r => r.1)) now, sB)
    | .ok mB =>
      .ok (maybeCount sA (mA.map (fun r => r.1)) now,
           maybeCount sB (mB.map (fun r => r.1)) now)

/-- One acquisition-loop iteration including the `except` handler: an
exception is logged and followed by `time.sleep(2)`; the counters keep
whatever mutations happened before the raise, and the loop continues. -/
def loop_step (tA tB : Option (ℕ × ℕ)) (fh fw : ℕ) (tmA tmB : ℚ → ℚ × Loc)
    (now : ℚ) (sA sB : CounterState) : CounterState × CounterState :=
  match loop_iter tA tB fh fw tmA tmB now sA sB with
  | .ok r => r
  | .error (_, a, b) => (a, b)

/-! ## `backend/optimizer.py` -/

/-- A `{lat, lng}` location supplied to `/optimize`. -/
structure Location where
  lat : ℚ
  lng : ℚ
deriving DecidableEq

/-- The radicand of `get_dist(p1, p2)`:
`(p1['lat'] - p2['lat'])**2 + (p1['lng'] - p2['lng'])**2`. -/
def get_dist_sq (p q : Location) : ℚ :=
  (p.lat - q.lat) ^ 2 + (p.lng - q.lng) ^ 2

/-- `get_dist(p1, p2) = math.sqrt(...)` from `backend/optimizer.py`:
Euclidean distance in raw degree units. -/
noncomputable def get_dist (p q : Location) : ℝ :=
  Real.sqrt ((get_dist_sq p q : ℚ) : ℝ)

/-- `min(unvisited, key=lambda node: get_dist(current, node))`: the
first element of `best :: xs` with minimal distance to `c`.  The
comparison is made on the squared distance, which selects the same
element as comparing `get_dist` itself because `Real.sqrt` is monotone
(`get_dist_le_iff` below). -/
def nearestNode (c : Location) : Location → List Location → Location
  | best, [] => best
  | best, x :: xs =>
    if get_dist_sq c x < get_dist_sq c best then nearestNode c x xs
    else nearestNode c best xs

/-- The nearest-neighbor `while unvisited:` loop of `optimize_route`,
with the list length as fuel (each pass removes the first occurrence of
the chosen node, as `unvisited.remove(nearest)` does). -/
def greedyAux : ℕ → Location → List Location → List Location
  | 0, _, _ => []
  | _ + 1, _, [] => []
  | n + 1, c, x :: xs =>
    nearestNode c x xs :: greedyAux n (nearestNode c x xs) ((x :: xs).erase (nearestNode c x xs))

/-- The `total_deg` accumulation of `optimize_route`: sum of
`get_dist(path[i], path[i+1])` over consecutive legs. -/
noncomputable def totalDeg : List Location → ℝ
  | a :: b :: rest => get_dist a b + totalDeg (b :: rest)
  | _ => 0

/-- `EMISSION_FACTORS = { "road": 0.080, "rail": 0.020, "air": 0.500 }`. -/
def EMISSION_FACTORS : List (String × ℚ) :=
  [("road", 0.080), ("rail", 0.020), ("air", 0.500)]

/-- `EMISSION_FACTORS.get(mode, EMISSION_FACTORS['road'])`. -/
def emission_factor (mode : String) : ℚ :=
  match EMISSION_FACTORS.lookup mode with
  | some f => f
  | none => 0.080

/-- `calculate_emissions(dist_km, weight_kg, mode)` (rational inputs,
as used by `/calculate-manual`). -/
def calculate_emissions (dist_km weight_kg : ℚ) (mode : String) : ℚ :=
  dist_km * (weight_kg / 1000) * emission_factor mode

/-- `calculate_emissions` applied to the real-valued route distances of
`/optimize` (the same source function; real-valued because the route
distance involves square roots). -/
noncomputable def calculate_emissionsR (dist_km weight_kg : ℝ) (mode : String) : ℝ :=
  dist_km * (weight_kg / 1000) * ((emission_factor mode : ℚ) : ℝ)

/-- The `stats` object returned by `/optimize`. -/
structure RouteStats where
  total_distance_km : ℝ
  optimized : ℝ
  baseline : ℝ
  saved : ℝ
  percent : ℝ

/-- The `/optimize` handler of `backend/optimizer.py`.  The human-
readable `logs` strings are not modelled.  Fewer than 2 locations is
rejected with HTTP 400 and `{"error": "Need at least 2 points"}`;
otherwise the greedy nearest-neighbor path starting from the first
location is built, the total degree distance is converted with the
fixed `111.0` km/degree factor, and emissions are computed at the
default weight `1000.0` kg with the `road` factor against a synthetic
baseline `45 %` longer. -/
noncomputable def optimize_route (locations : List Location) :
    Except (ℕ × String) (List Location × RouteStats) :=
  if locations.length < 2 then .error (400, "Need at least 2 points")
  else
    match locations with
    | [] => .error (400, "Need at least 2 points")
    | c :: rest =>
      let path := c :: greedyAux rest.length c rest
      let total_km : ℝ := totalDeg path * 111
      let optimized_emission := calculate_emissionsR total_km 1000 "road"
      let baseline_km := total_km * 1.45
      let baseline_emission := calculate_emissionsR baseline_km 1000 "road"
      let saved_emission := max 0 (baseline_emission - optimized_emission)
      let reduction_pct :=
        if 0 < baseline_emission then saved_emission / baseline_emission * 100 else 0
      .ok (path, ⟨total_km, optimized_emission, baseline_emission,
                  saved_emission, reduction_pct⟩)

/-- The module-level mutable state of `backend/optimizer.py`:
`current_counts = {"a": 0, "b": 0}` (the only process-wide state the
HTTP handlers could touch). -/
structure ServerState where
  a : ℤ
  b : ℤ
deriving DecidableEq

/-- The `/optimize` endpoint viewed as a state transformer over the
server's only mutable state: the handler never writes `current_counts`,
so the state is returned unchanged alongside the response. -/
noncomputable def optimize_endpoint (st : ServerState) (locations : List Location) :
    ServerState × Except (ℕ × String) (List Location × RouteStats) :=
  (st, optimize_route locations)

/-- A JSON value sitting in a `/calculate-manual` payload field, as seen
by Python's `float()`.  `str numVal` is a JSON string, carrying `some q`
when Python's `float()` parses it to the number `q` and `none` when it
is not numeric (the string-to-float grammar itself is not embedded). -/
inductive PyVal where
  | num (q : ℚ)
  | str (numVal : Option ℚ)
  | null
deriving DecidableEq

/-- The `/calculate-manual` request body: each field may be absent.
Non-string `mode` values behave like unknown strings in the factor
lookup, so `mode` is modelled as an optional string. -/
structure ManualPayload where
  distance : Option PyVal := none
  weight : Option PyVal := none
  mode : Option String := none

/-- Python's `float()` coercion on a payload value: numbers pass
through, numeric strings parse, non-numeric strings raise `ValueError`,
`None` raises `TypeError`. -/
def pyFloat : PyVal → Except String ℚ
  | .num q => .ok q
  | .str (some q) => .ok q
  | .str none => .error "ValueError"
  | .null => .error "TypeError"

/-- The core formula of `calculate_manual`: the chosen mode's emission,
the baseline at the `air` factor, and `savings = max(0, baseline -
emission)`. -/
def calculate_manual (distance weight : ℚ) (mode : String) : ℚ × ℚ × ℚ :=
  let emission_kg := calculate_emissions distance weight mode
  let baseline_kg := calculate_emissions distance weight "air"
  (emission_kg, baseline_kg, max 0 (baseline_kg - emission_kg))

/-- The `/calculate-manual` handler: `payload = request.json or {}`,
`distance = float(payload.get('distance', 0.0))`, likewise for
`weight`, `mode = payload.get('mode', 'road')`.  A `float()` failure
propagates as an unhandled exception (Flask answers 500). -/
def calculate_manual_endpoint (payload : Option ManualPayload) : Except String (ℚ × ℚ × ℚ) :=
  let p := payload.getD {}
  match pyFloat ((p.distance).getD (.num 0)) with
  | .error e => .error e
  | .ok distance =>
    match pyFloat ((p.weight).getD (.num 0)) with
    | .error e => .error e
    | .ok weight =>
      .ok (calculate_manual distance weight ((p.mode).getD "road"))

/-- Modelled from the spec: the greedy nearest-neighbor path relation
(§4.5 of the spec — "repeatedly pick the unvisited location with
minimum Euclidean distance (in raw lat/lng degree units, not geodesic)
to the current point, until all are visited"), stated against the
real-valued Euclidean distance `get_dist`.  Used to check that the path
built by `optimize_route` refines this description. -/
inductive GreedyFrom : Location → List Location → List Location → Prop where
  | nil : ∀ c, GreedyFrom c [] []
  | cons : ∀ c unvisited n rest,
      n ∈ unvisited →
      (∀ y ∈ unvisited, get_dist c n ≤ get_dist c y) →
      GreedyFrom n (unvisited.erase n) rest →
      GreedyFrom c unvisited (n :: rest)

/-! ## Helper lemmas: the `find_match` fold -/

theorem foldl_if_skip {α : Type} (p : ℚ → Prop) [DecidablePred p] (g : α → ℚ → α) :
    ∀ (l : List ℚ) (acc : α),
      l.foldl (fun a s => if p s then a else g a s) acc
        = (l.filter (fun s => decide (¬ p s))).foldl g acc := by
  intro l
  induction l with
  | nil => intro acc; rfl
  | cons x xs ih =>
    intro acc
    by_cases hx : p x <;> simp [List.filter_cons, hx, ih]

theorem find_match_eq_bestOf (fh fw th tw : ℕ) (tm : ℚ → ℚ × Loc) :
    find_match fh fw th tw tm = bestOf tm (keptScales fh fw th tw) := by
  unfold find_match keptScales bestOf
  exact foldl_if_skip
    (fun s => cvRound ((fh : ℚ) * s) < (th : ℤ) ∨ cvRound ((fw : ℚ) * s) < (tw : ℤ))
    (updateBest tm) _ none

theorem bestInv_step (tm : ℚ → ℚ × Loc) (done : List ℚ) (acc : Option (ℚ × Loc × ℚ))
    (x : ℚ) (h : BestInv tm done acc) : BestInv tm (done ++ [x]) (updateBest tm acc x) := by
  obtain ⟨hnone, hsome⟩ := h
  cases acc with
  | none =>
    have hdone : done = [] := hnone.mp rfl
    subst hdone
    refine ⟨by simp [updateBest], ?_⟩
    intro v l s hs
    obtain ⟨h1, h2, h3⟩ : (tm x).1 = v ∧ (tm x).2 = l ∧ x = s := by
      simpa [Prod.ext_iff] using Option.some.inj hs
    subst h1; subst h2; subst h3
    exact ⟨rfl, [], [], by simp, by simp, by simp⟩
  | some f =>
    obtain ⟨v0, l0, s0⟩ := f
    obtain ⟨hv0, t1, t2, hdone, hlt, hle⟩ := hsome v0 l0 s0 rfl
    by_cases hcmp : v0 < (tm x).1
    · refine ⟨by simp [updateBest, hcmp], ?_⟩
      intro v l s hs
      simp only [updateBest, if_pos hcmp] at hs
      obtain ⟨h1, h2, h3⟩ : (tm x).1 = v ∧ (tm x).2 = l ∧ x = s := by
        simpa [Prod.ext_iff] using Option.some.inj hs
      subst h1; subst h2; subst h3
      refine ⟨rfl, done, [], by simp [hdone], ?_, by simp⟩
      intro y hy
      rw [hdone] at hy
      rcases List.mem_append.mp hy with hy1 | hy2
      · exact lt_trans (hlt y hy1) hcmp
      · rcases List.mem_cons.mp hy2 with rfl | hy3
        · have hs0 : (tm y).1 = v0 := by rw [← hv0]
          rw [hs0]; exact hcmp
        · exact lt_of_le_of_lt (hle y hy3) hcmp
    · refine ⟨by simp [updateBest, hcmp], ?_⟩
      intro v l s hs
      simp only [updateBest, if_neg hcmp] at hs
      obtain ⟨h1, h2, h3⟩ : v0 = v ∧ l0 = l ∧ s0 = s := by
        simpa [Prod.ext_iff] using Option.some.inj hs
      subst h1; subst h2; subst h3
      refine ⟨hv0, t1, t2 ++ [x], by simp [hdone], hlt, ?_⟩
      intro y hy
      rcases List.mem_append.mp hy with hy1 | hy2
      · exact hle y hy1
      · rcases List.mem_singleton.mp hy2 with rfl
        exact le_of_not_lt hcmp

theorem bestOf_bestInv (tm : ℚ → ℚ × Loc) (l : List ℚ) : BestInv tm l (bestOf tm l) := by
  induction l using List.reverseRecOn with
  | nil => exact ⟨by simp [bestOf], by simp [bestOf]⟩
  | append_singleton xs x ih =>
    have : bestOf tm (xs ++ [x]) = updateBest tm (bestOf tm xs) x := by
      simp [bestOf, List.foldl_append]
    rw [this]
    exact bestInv_step tm xs (bestOf tm xs) x ih

/-! ## Helper lemmas: the debounced counter -/

theorem maybeCount_eq_or (s : CounterState) (sc : Option ℚ) (now : ℚ) :
    maybeCount s sc now = s ∨
    (maybeCount s sc now = ⟨s.count + 1, now⟩ ∧
      ∃ v, sc = some v ∧ THRESHOLD < v ∧ COOLDOWN_TIME < now - s.last_seen) := by
  cases sc with
  | none => exact Or.inl rfl
  | some v =>
    by_cases h1 : THRESHOLD < v
    · by_cases h2 : COOLDOWN_TIME < now - s.last_seen
      · exact Or.inr ⟨by simp [maybeCount, h1, h2], v, rfl, h1, h2⟩
      · exact Or.inl (by simp [maybeCount, h1, h2])
    · exact Or.inl (by simp [maybeCount, h1])

theorem maybeCount_inc_iff (s : CounterState) (sc : Option ℚ) (now : ℚ) :
    (maybeCount s sc now).count = s.count + 1 ↔
      ∃ v, sc = some v ∧ THRESHOLD < v ∧ COOLDOWN_TIME < now - s.last_seen := by
  rcases maybeCount_eq_or s sc now with h | ⟨h, v, hv, h1, h2⟩
  · rw [h]
    simp only [Nat.self_eq_add_right, iff_false]
    · constructor
      · intro hh; exact absurd hh (by omega)
      · rintro ⟨v, rfl, hv1, hv2⟩
        have : maybeCount s (some v) now = ⟨s.count + 1, now⟩ := by
          simp [maybeCount, hv1, hv2]
        rw [this] at h
        have := congrArg CounterState.count h
        simp at this
  · rw [h]
    simp only [true_iff]
    exact ⟨v, hv, h1, h2⟩

theorem maybeCount_inc_last_seen (s : CounterState) (sc : Option ℚ) (now : ℚ)
    (h : (maybeCount s sc now).count = s.count + 1) :
    (maybeCount s sc now).last_seen = now := by
  rcases maybeCount_eq_or s sc now with heq | ⟨heq, _⟩
  · rw [heq] at h; omega
  · rw [heq]

theorem maybeCount_count_le (s : CounterState) (sc : Option ℚ) (now : ℚ) :
    s.count ≤ (maybeCount s sc now).count := by
  rcases maybeCount_eq_or s sc now with h | ⟨h, _⟩
  · rw [h]
  · have hc : (maybeCount s sc now).count = s.count + 1 := by rw [h]
    omega

theorem runCounter_count_mono (l : List (Option ℚ × ℚ)) :
    ∀ s : CounterState, s.count ≤ (runCounter s l).count := by
  induction l with
  | nil => intro s; exact le_refl _
  | cons e rest ih =>
    intro s
    obtain ⟨sc, t⟩ := e
    exact le_trans (maybeCount_count_le s sc t) (ih (maybeCount s sc t))

theorem runCounter_count_eq (l : List (Option ℚ × ℚ)) :
    ∀ s : CounterState, (runCounter s l).count = s.count + (incTimes s l).length := by
  induction l with
  | nil => intro s; simp [runCounter, incTimes]
  | cons e rest ih =>
    intro s
    obtain ⟨sc, t⟩ := e
    rcases maybeCount_eq_or s sc t with h | ⟨h, _⟩
    · have hc : (maybeCount s sc t).count = s.count := by rw [h]
      have hlt : ¬ s.count < (maybeCount s sc t).count := by omega
      simp only [runCounter, incTimes, if_neg hlt]
      rw [ih (maybeCount s sc t), hc]
    · have hc : (maybeCount s sc t).count = s.count + 1 := by rw [h]
      have hlt : s.count < (maybeCount s sc t).count := by omega
      simp only [runCounter, incTimes, if_pos hlt]
      rw [ih (maybeCount s sc t), hc, List.length_cons]
      omega

theorem incTimes_chain (l : List (Option ℚ × ℚ)) :
    ∀ s : CounterState,
      List.Chain (fun a b => COOLDOWN_TIME < b - a) s.last_seen (incTimes s l) := by
  induction l with
  | nil => intro s; exact List.Chain.nil
  | cons e rest ih =>
    intro s
    obtain ⟨sc, t⟩ := e
    rcases maybeCount_eq_or s sc t with h | ⟨h, v, hv, h1, h2⟩
    · have hc : (maybeCount s sc t).count = s.count := by rw [h]
      have hlt : ¬ s.count < (maybeCount s sc t).count := by omega
      simp only [incTimes, if_neg hlt]
      rw [h]
      exact ih s
    · have hc : (maybeCount s sc t).count = s.count + 1 := by rw [h]
      have hlt : s.count < (maybeCount s sc t).count := by omega
      simp only [incTimes, if_pos hlt]
      refine List.Chain.cons h2 ?_
      have hls : (maybeCount s sc t).last_seen = t := by rw [h]
      have h3 := ih (maybeCount s sc t)
      rwa [hls] at h3

/-! ## Helper lemmas: the greedy route -/

theorem get_dist_nonneg (p q : Location) : 0 ≤ get_dist p q :=
  Real.sqrt_nonneg _

theorem get_dist_sq_nonneg (p q : Location) : 0 ≤ get_dist_sq p q := by
  unfold get_dist_sq; positivity

theorem get_dist_le_iff (c a b : Location) :
    get_dist c a ≤ get_dist c b ↔ get_dist_sq c a ≤ get_dist_sq c b := by
  have hb : (0 : ℝ) ≤ ((get_dist_sq c b : ℚ) : ℝ) := by
    exact_mod_cast get_dist_sq_nonneg c b
  unfold get_dist
  rw [Real.sqrt_le_sqrt_iff hb]
  exact Rat.cast_le

theorem nearestNode_mem (c : Location) :
    ∀ (xs : List Location) (best : Location), nearestNode c best xs ∈ best :: xs := by
  intro xs
  induction xs with
  | nil => intro best; simp [nearestNode]
  | cons x xs ih =>
    intro best
    by_cases h : get_dist_sq c x < get_dist_sq c best
    · simp only [nearestNode, if_pos h]
      exact List.mem_cons_of_mem _ (ih x)
    · simp only [nearestNode, if_neg h]
      rcases List.mem_cons.mp (ih best) with h1 | h1
      · rw [h1]; exact List.mem_cons_self _ _
      · exact List.mem_cons_of_mem _ (List.mem_cons_of_mem _ h1)

theorem nearestNode_min (c : Location) :
    ∀ (xs : List Location) (best y : Location), y ∈ best :: xs →
      get_dist_sq c (nearestNode c best xs) ≤ get_dist_sq c y := by
  intro xs
  induction xs with
  | nil =>
    intro best y hy
    have hyb : y = best := List.mem_singleton.mp hy
    rw [hyb]
    exact le_refl _
  | cons x xs ih =>
    intro best y hy
    by_cases h : get_dist_sq c x < get_dist_sq c best
    · simp only [nearestNode, if_pos h]
      rcases List.mem_cons.mp hy with h1 | hy2
      · rw [h1]
        exact le_trans (ih x x (List.mem_cons_self _ _)) (le_of_lt h)
      · exact ih x y hy2
    · simp only [nearestNode, if_neg h]
      rcases List.mem_cons.mp hy with h1 | hy2
      · rw [h1]
        exact ih best best (List.mem_cons_self _ _)
      · rcases List.mem_cons.mp hy2 with h1 | hy3
        · rw [h1]
          exact le_trans (ih best best (List.mem_cons_self _ _)) (le_of_not_lt h)
        · exact ih best y (List.mem_cons_of_mem _ hy3)

theorem greedyAux_perm : ∀ (n : ℕ) (c : Location) (l : List Location),
    l.length = n → (greedyAux n c l).Perm l := by
  intro n
  induction n with
  | zero =>
    intro c l hl
    rw [List.length_eq_zero.mp hl]
    exact List.Perm.refl _
  | succ n ih =>
    intro c l hl
    cases l with
    | nil => simp at hl
    | cons x xs =>
      have hmem : nearestNode c x xs ∈ x :: xs := nearestNode_mem c xs x
      have hlen : ((x :: xs).erase (nearestNode c x xs)).length = n := by
        rw [List.length_erase_of_mem hmem]
        simp only [List.length_cons] at hl ⊢
        omega
      have hperm := ih (nearestNode c x xs) _ hlen
      have h1 : greedyAux (n + 1) c (x :: xs)
          = nearestNode c x xs :: greedyAux n (nearestNode c x xs)
              ((x :: xs).erase (nearestNode c x xs)) := rfl
      rw [h1]
      exact (List.Perm.cons _ hperm).trans (List.perm_cons_erase hmem).symm

theorem greedyAux_greedy : ∀ (n : ℕ) (c : Location) (l : List Location),
    l.length = n → GreedyFrom c l (greedyAux n c l) := by
  intro n
  induction n with
  | zero =>
    intro c l hl
    rw [List.length_eq_zero.mp hl]
    exact GreedyFrom.nil c
  | succ n ih =>
    intro c l hl
    cases l with
    | nil => simp at hl
    | cons x xs =>
      have hmem : nearestNode c x xs ∈ x :: xs := nearestNode_mem c xs x
      have hlen : ((x :: xs).erase (nearestNode c x xs)).length = n := by
        rw [List.length_erase_of_mem hmem]
        simp only [List.length_cons] at hl ⊢
        omega
      exact GreedyFrom.cons c (x :: xs) (nearestNode c x xs) _ hmem
        (fun y hy => (get_dist_le_iff c _ y).mpr (nearestNode_min c xs x y hy))
        (ih _ _ hlen)

/-! ## Helper lemmas: concrete evaluations -/

theorem emission_factor_road : emission_factor "road" = 2 / 25 := by
  norm_num [emission_factor, EMISSION_FACTORS, List.lookup]

theorem emission_factor_rail : emission_factor "rail" = 1 / 50 := by
  have b1 : ("rail" == "road") = false := by decide
  norm_num [emission_factor, EMISSION_FACTORS, List.lookup, b1]

theorem emission_factor_air : emission_factor "air" = 1 / 2 := by
  have b1 : ("air" == "road") = false := by decide
  have b2 : ("air" == "rail") = false := by decide
  norm_num [emission_factor, EMISSION_FACTORS, List.lookup, b1, b2]

theorem emission_factor_unknown (m : String)
    (h1 : m ≠ "road") (h2 : m ≠ "rail") (h3 : m ≠ "air") :
    emission_factor m = 2 / 25 := by
  have b1 : (m == "road") = false := beq_eq_false_iff_ne.mpr h1
  have b2 : (m == "rail") = false := beq_eq_false_iff_ne.mpr h2
  have b3 : (m == "air") = false := beq_eq_false_iff_ne.mpr h3
  norm_num [emission_factor, EMISSION_FACTORS, List.lookup, b1, b2, b3]

theorem get_dist_01 : get_dist ⟨0, 0⟩ ⟨0, 1⟩ = 1 := by
  unfold get_dist
  have h : ((get_dist_sq ⟨0, 0⟩ ⟨0, 1⟩ : ℚ) : ℝ) = 1 := by
    norm_num [get_dist_sq]
  rw [h, Real.sqrt_one]

theorem get_dist_self (a : Location) : get_dist a a = 0 := by
  unfold get_dist
  have h : ((get_dist_sq a a : ℚ) : ℝ) = 0 := by norm_num [get_dist_sq]
  rw [h, Real.sqrt_zero]

theorem optimize_route_eval_01 :
    optimize_route [⟨0, 0⟩, ⟨0, 1⟩] =
      .ok ([⟨0, 0⟩, ⟨0, 1⟩], ⟨111, 222 / 25, 3219 / 250, 999 / 250, 900 / 29⟩) := by
  have hpath : (⟨0, 0⟩ : Location) :: greedyAux 1 ⟨0, 0⟩ [⟨0, 1⟩] = [⟨0, 0⟩, ⟨0, 1⟩] := rfl
  have htot : totalDeg [(⟨0, 0⟩ : Location), ⟨0, 1⟩] = 1 := by
    simp [totalDeg, get_dist_01]
  have hfac : ((emission_factor "road" : ℚ) : ℝ) = 2 / 25 := by
    rw [emission_factor_road]; norm_num
  unfold optimize_route
  rw [if_neg (by norm_num)]
  simp only [List.length_cons, List.length_nil, hpath, htot, calculate_emissionsR, hfac]
  norm_num [Except.ok.injEq, Prod.mk.injEq, RouteStats.mk.injEq, max_eq_right]

theorem optimize_route_eval_degenerate :
    optimize_route [⟨0, 0⟩, ⟨0, 0⟩] =
      .ok ([⟨0, 0⟩, ⟨0, 0⟩], ⟨0, 0, 0, 0, 0⟩) := by
  have hpath : (⟨0, 0⟩ : Location) :: greedyAux 1 ⟨0, 0⟩ [⟨0, 0⟩] = [⟨0, 0⟩, ⟨0, 0⟩] := rfl
  have htot : totalDeg [(⟨0, 0⟩ : Location), ⟨0, 0⟩] = 0 := by
    simp [totalDeg, get_dist_self]
  have hfac : ((emission_factor "road" : ℚ) : ℝ) = 2 / 25 := by
    rw [emission_factor_road]; norm_num
  unfold optimize_route
  rw [if_neg (by norm_num)]
  simp only [List.length_cons, List.length_nil, hpath, htot, calculate_emissionsR, hfac]
  norm_num [Except.ok.injEq, Prod.mk.injEq, RouteStats.mk.injEq, max_eq_right]

/-! ## Claim theorems -/

/-- C1 (amended): for every label and every event sequence, the
per-label count is monotonically non-decreasing; the count equals the
initial count plus the number of recorded increments, and successive
increment times (starting from the initial `last_seen`) are separated
by strictly more than `COOLDOWN_TIME`, so the count increments at most
once per cooldown window; a step increments (by exactly one, setting
`last_seen := now`) precisely when the score exceeds `THRESHOLD` and
`now - last_seen > COOLDOWN_TIME`.  However, a fixed qualifying match
repeated every `0.5 s` for `10` seconds (20 samples) yields exactly 4
increments — at relative times `0, 2.5, 5, 7.5` — not 5, because the
strict comparison stretches the effective period to `2.5 s` on the
exact `0.5 s` grid. -/
theorem C1_debounced_counter :
    (∀ (s : CounterState) (l : List (Option ℚ × ℚ)), s.count ≤ (runCounter s l).count) ∧
    (∀ (s : CounterState) (l : List (Option ℚ × ℚ)),
      (runCounter s l).count = s.count + (incTimes s l).length ∧
      List.Chain (fun a b => COOLDOWN_TIME < b - a) s.last_seen (incTimes s l)) ∧
    (∀ (s : CounterState) (sc : Option ℚ) (now : ℚ),
      ((maybeCount s sc now).count = s.count + 1 ↔
        ∃ v, sc = some v ∧ THRESHOLD < v ∧ COOLDOWN_TIME < now - s.last_seen) ∧
      ((maybeCount s sc now).count = s.count + 1 → (maybeCount s sc now).last_seen = now) ∧
      (maybeCount s sc now = s ∨ (maybeCount s sc now).count = s.count + 1)) ∧
    ((runCounter ⟨0, 0⟩ ticks20).count = 4 ∧
      incTimes ⟨0, 0⟩ ticks20 = [100, 205 / 2, 105, 215 / 2]) := by
  refine ⟨fun s l => runCounter_count_mono l s,
          fun s l => ⟨runCounter_count_eq l s, incTimes_chain l s⟩,
          fun s sc now => ⟨maybeCount_inc_iff s sc now,
                           maybeCount_inc_last_seen s sc now, ?_⟩, ?_, ?_⟩
  · rcases maybeCount_eq_or s sc now with h | ⟨h, _⟩
    · exact Or.inl h
    · exact Or.inr (by rw [h])
  · norm_num [ticks20, List.range_succ, runCounter, maybeCount, THRESHOLD, COOLDOWN_TIME]
  · norm_num [ticks20, List.range_succ, incTimes, runCounter, maybeCount, THRESHOLD,
      COOLDOWN_TIME]

/-- Witness for C1: at the first qualifying event (score `1`, time
`100`, fresh state), the count increments to `1` and `last_seen`
becomes `100`. -/
theorem C1_debounced_counter_witness :
    (maybeCount ⟨0, 0⟩ (some 1) 100).count = 0 + 1 ∧
    (maybeCount ⟨0, 0⟩ (some 1) 100).last_seen = 100 := by
  have h := C1_debounced_counter.2.2.1 ⟨0, 0⟩ (some 1) 100
  have hinc : (maybeCount ⟨0, 0⟩ (some 1) 100).count = (⟨0, 0⟩ : CounterState).count + 1 :=
    h.1.mpr ⟨1, rfl, by norm_num [THRESHOLD], by norm_num [COOLDOWN_TIME]⟩
  exact ⟨hinc, h.2.1 hinc⟩

/-- Counterexample for C1 as stated: the qualifying match repeated
every `0.5 s` for `10` seconds (20 samples, `ticks20`) yields 4
increments, not the claimed 5. -/
theorem C1_counterexample :
    (runCounter ⟨0, 0⟩ ticks20).count = 4 ∧ (runCounter ⟨0, 0⟩ ticks20).count ≠ 5 := by
  have h4 : (runCounter ⟨0, 0⟩ ticks20).count = 4 := by
    norm_num [ticks20, List.range_succ, runCounter, maybeCount, THRESHOLD, COOLDOWN_TIME]
  exact ⟨h4, by rw [h4]; norm_num⟩

/-- C2: `find_match` tries exactly the 5 evenly spaced scale factors
`0.5, 0.75, 1.0, 1.25, 1.5` (linspace from `0.5` to `1.5` with 5
samples), and whenever it returns a triple, that triple's score and
location come from the returned scale and the returned scale is the
first non-skipped scale attaining the maximal score: every earlier
tried scale scores strictly lower, every later tried scale scores no
higher (ties broken in favor of the first-encountered scale by the
strict greater-than comparison). -/
theorem C2_find_match_best_scale :
    linspace (1 / 2) (3 / 2) 5 = [1 / 2, 3 / 4, 1, 5 / 4, 3 / 2] ∧
    ∀ (fh fw th tw : ℕ) (tm : ℚ → ℚ × Loc) (v : ℚ) (l : Loc) (s : ℚ),
      find_match fh fw th tw tm = some (v, l, s) →
        (v, l) = tm s ∧
        ∃ t1 t2, keptScales fh fw th tw = t1 ++ s :: t2 ∧
          (∀ y ∈ t1, (tm y).1 < v) ∧ (∀ y ∈ t2, (tm y).1 ≤ v) := by
  constructor
  · norm_num [linspace, List.range_succ]
  · intro fh fw th tw tm v l s h
    rw [find_match_eq_bestOf] at h
    exact (bestOf_bestInv tm (keptScales fh fw th tw)).2 v l s h

/-- Witness for C2: a 100×100 frame, 10×10 template, and a matcher
whose score equals the scale; `find_match` returns scale `1.5` with
score `1.5`, the first maximal entry of the kept scales. -/
theorem C2_find_match_best_scale_witness :
    ((3 / 2 : ℚ), ((0, 0) : Loc)) = (fun s : ℚ => (s, ((0, 0) : Loc))) (3 / 2) ∧
    ∃ t1 t2, keptScales 100 100 10 10 = t1 ++ (3 / 2 : ℚ) :: t2 ∧
      (∀ y ∈ t1, ((fun s : ℚ => (s, ((0, 0) : Loc))) y).1 < (3 / 2 : ℚ)) ∧
      (∀ y ∈ t2, ((fun s : ℚ => (s, ((0, 0) : Loc))) y).1 ≤ (3 / 2 : ℚ)) :=
  C2_find_match_best_scale.2 100 100 10 10 (fun s : ℚ => (s, ((0, 0) : Loc))) (3 / 2) (0, 0) (3 / 2)
    (by norm_num [find_match, linspace, List.range_succ, cvRound, updateBest])

/-- C3: `find_match` returns `none` exactly when every scale is
skipped, i.e. when for every candidate scale factor the resized frame
is strictly smaller than the template in height or width. -/
theorem C3_find_match_none_iff :
    ∀ (fh fw th tw : ℕ) (tm : ℚ → ℚ × Loc),
      find_match fh fw th tw tm = none ↔
        ∀ s ∈ linspace (1 / 2) (3 / 2) 5,
          cvRound ((fh : ℚ) * s) < (th : ℤ) ∨ cvRound ((fw : ℚ) * s) < (tw : ℤ) := by
  intro fh fw th tw tm
  rw [find_match_eq_bestOf, (bestOf_bestInv tm (keptScales fh fw th tw)).1]
  unfold keptScales
  rw [List.filter_eq_nil_iff]
  constructor
  · intro h s hs
    have h2 := h s hs
    rw [decide_eq_true_eq] at h2
    exact not_not.mp h2
  · intro h s hs
    rw [decide_eq_true_eq]
    exact not_not.mpr (h s hs)

/-- Witness for C3: a 4×4 frame against a 10×10 template — every
resized frame (2, 3, 4, 5, 6 pixels) is smaller than the template, so
the result is `none`. -/
theorem C3_find_match_none_iff_witness :
    find_match 4 4 10 10 (fun s => (s, ((0, 0) : Loc))) = none :=
  (C3_find_match_none_iff 4 4 10 10 _).mpr (by
    norm_num [linspace, List.range_succ, List.forall_mem_cons, cvRound])

/-- C4 (code evaluation at the failing input): `load_and_prep` returns
an absent value on a failed read, and the loop itself survives; but
when template A is missing, one acquisition iteration raises inside
`find_match` (attribute access on `None`), is swallowed by the generic
`except` handler, and leaves BOTH counters untouched — object B's
matching never runs even though B's matcher would have reported a
fully qualifying score of `1`.  With template A present, the very same
B input increments B's count to `1`. -/
theorem C4_missing_template_behavior :
    load_and_prep none = none ∧
    loop_step none (some (10, 10)) 100 100 (fun _ => (0, (0, 0))) (fun _ => (1, (0, 0)))
        100 ⟨0, 0⟩ ⟨0, 0⟩ = (⟨0, 0⟩, ⟨0, 0⟩) ∧
    (loop_step (some (10, 10)) (some (10, 10)) 100 100 (fun _ => (0, (0, 0)))
        (fun _ => (1, (0, 0))) 100 ⟨0, 0⟩ ⟨0, 0⟩).2.count = 1 := by
  refine ⟨rfl, rfl, ?_⟩
  norm_num [loop_step, loop_iter, find_match_checked, find_match, linspace, List.range_succ,
    cvRound, updateBest, maybeCount, THRESHOLD, COOLDOWN_TIME]

/-- C5: for every list of at least 2 locations, `/optimize` succeeds
and returns a path that is a permutation of the input starting at the
first supplied location, built greedily by repeatedly appending the
unvisited location of minimum Euclidean degree distance
(`GreedyFrom`), with `total_distance_km` equal to the sum of
consecutive-leg degree distances times `111.0`; on
`[(0,0), (0,1)]` the path preserves both points and the total is
exactly `111`. -/
theorem C5_optimize_route_greedy :
    (∀ locs : List Location, 2 ≤ locs.length →
      ∃ path stats, optimize_route locs = .ok (path, stats) ∧
        path.Perm locs ∧
        path.head? = locs.head? ∧
        (∃ c rest tail, locs = c :: rest ∧ path = c :: tail ∧ GreedyFrom c rest tail) ∧
        stats.total_distance_km = totalDeg path * 111) ∧
    (∃ stats, optimize_route [⟨0, 0⟩, ⟨0, 1⟩] = .ok ([⟨0, 0⟩, ⟨0, 1⟩], stats) ∧
      stats.total_distance_km = 111) := by
  constructor
  · intro locs hlen
    cases locs with
    | nil => simp at hlen
    | cons c rest =>
      have hnl : ¬ (c :: rest).length < 2 := not_lt.mpr hlen
      obtain ⟨path, stats, heq, hp, ht⟩ :
          ∃ path stats, optimize_route (c :: rest) = .ok (path, stats) ∧
            path = c :: greedyAux rest.length c rest ∧
            stats.total_distance_km = totalDeg path * 111 := by
        unfold optimize_route
        rw [if_neg hnl]
        exact ⟨_, _, rfl, rfl, rfl⟩
      refine ⟨path, stats, heq, ?_, ?_, ?_, ht⟩
      · rw [hp]
        exact List.Perm.cons c (greedyAux_perm rest.length c rest rfl)
      · rw [hp]
        rfl
      · exact ⟨c, rest, greedyAux rest.length c rest, rfl, hp,
          greedyAux_greedy rest.length c rest rfl⟩
  · exact ⟨⟨111, 222 / 25, 3219 / 250, 999 / 250, 900 / 29⟩, optimize_route_eval_01, rfl⟩

/-- Witness for C5 at the concrete input `[(0,0), (0,1)]`. -/
theorem C5_optimize_route_greedy_witness :
    ∃ path stats, optimize_route [⟨0, 0⟩, ⟨0, 1⟩] = .ok (path, stats) ∧
      path.Perm [⟨0, 0⟩, ⟨0, 1⟩] ∧
      path.head? = [(⟨0, 0⟩ : Location), ⟨0, 1⟩].head? ∧
      (∃ c rest tail, [(⟨0, 0⟩ : Location), ⟨0, 1⟩] = c :: rest ∧ path = c :: tail ∧
        GreedyFrom c rest tail) ∧
      stats.total_distance_km = totalDeg path * 111 :=
  C5_optimize_route_greedy.1 [⟨0, 0⟩, ⟨0, 1⟩] (by norm_num)

/-- C6: `/optimize` with fewer than 2 locations answers the client
error `400` with message `"Need at least 2 points"` and leaves the
server's only mutable state (`current_counts`) unchanged. -/
theorem C6_optimize_rejects_short_input :
    ∀ (st : ServerState) (locations : List Location), locations.length < 2 →
      optimize_endpoint st locations = (st, .error (400, "Need at least 2 points")) := by
  intro st locations h
  unfold optimize_endpoint optimize_route
  rw [if_pos h]

/-- Witness for C6: the empty location list. -/
theorem C6_optimize_rejects_short_input_witness :
    optimize_endpoint ⟨0, 0⟩ [] = (⟨0, 0⟩, .error (400, "Need at least 2 points")) :=
  C6_optimize_rejects_short_input ⟨0, 0⟩ [] (by norm_num)

/-- C7 (amended): for every successful `/optimize` response, the
baseline emission is computed from a distance exactly `1.45` times the
optimized distance; whenever the optimized distance is positive the
reported percent reduction equals `(1 - 1/1.45) * 100` (≈ 31.03 %),
but when the total distance is `0` the guard `baseline_emission > 0`
fails and the reported percent is `0`, not 31.03 %. -/
theorem C7_percent_reduction :
    ∀ (locs path : List Location) (stats : RouteStats),
      optimize_route locs = .ok (path, stats) →
        stats.baseline = calculate_emissionsR (stats.total_distance_km * 1.45) 1000 "road" ∧
        (0 < stats.total_distance_km → stats.percent = (1 - 1 / 1.45) * 100) ∧
        (stats.total_distance_km = 0 → stats.percent = 0) := by
  intro locs path stats h
  unfold optimize_route at h
  by_cases hlen : locs.length < 2
  · rw [if_pos hlen] at h
    exact absurd h (by simp)
  · rw [if_neg hlen] at h
    cases locs with
    | nil => exact absurd h (by simp)
    | cons c rest =>
      simp only [Except.ok.injEq, Prod.mk.injEq] at h
      obtain ⟨hp, hs⟩ := h
      subst hs
      have hfac : ((emission_factor "road" : ℚ) : ℝ) = 2 / 25 := by
        rw [emission_factor_road]; norm_num
      refine ⟨rfl, ?_, ?_⟩
      · intro hpos
        dsimp only at hpos ⊢
        simp only [calculate_emissionsR, hfac]
        generalize hT : totalDeg (c :: greedyAux rest.length c rest) * 111 = T at hpos ⊢
        rw [if_pos (by positivity)]
        rw [max_eq_right (by nlinarith)]
        have hT0 : T ≠ 0 := ne_of_gt hpos
        norm_num
        field_simp
        ring
      · intro hzero
        dsimp only at hzero ⊢
        simp only [calculate_emissionsR, hfac]
        generalize hT : totalDeg (c :: greedyAux rest.length c rest) * 111 = T at hzero ⊢
        subst hzero
        norm_num

/-- Witness for C7 at the input `[(0,0), (0,1)]`: the optimized
distance is `111 > 0` and the reported percent equals
`(1 - 1/1.45) * 100`. -/
theorem C7_percent_reduction_witness :
    ∃ stats : RouteStats,
      (optimize_route [⟨0, 0⟩, ⟨0, 1⟩]).toOption = some ([⟨0, 0⟩, ⟨0, 1⟩], stats) ∧
      0 < stats.total_distance_km ∧ stats.percent = (1 - 1 / 1.45) * 100 := by
  refine ⟨⟨111, 222 / 25, 3219 / 250, 999 / 250, 900 / 29⟩,
    by rw [optimize_route_eval_01]; rfl, by norm_num, ?_⟩
  exact (C7_percent_reduction [⟨0, 0⟩, ⟨0, 1⟩] [⟨0, 0⟩, ⟨0, 1⟩]
    ⟨111, 222 / 25, 3219 / 250, 999 / 250, 900 / 29⟩ optimize_route_eval_01).2.1 (by norm_num)

/-- Counterexample for C7 as stated ("regardless of input"): for the
degenerate input `[(0,0), (0,0)]` the handler succeeds with total
distance `0` and reports a percent reduction of `0`, which differs
from `(1 - 1/1.45) * 100`. -/
theorem C7_counterexample :
    (∃ path stats, optimize_route [⟨0, 0⟩, ⟨0, 0⟩] = .ok (path, stats) ∧
      stats.percent = 0) ∧ (0 : ℝ) ≠ (1 - 1 / 1.45) * 100 := by
  exact ⟨⟨[⟨0, 0⟩, ⟨0, 0⟩], ⟨0, 0, 0, 0, 0⟩, optimize_route_eval_degenerate, rfl⟩, by norm_num⟩

/-- C8: `calculate_manual` returns
`emission_kg = distance * (weight/1000) * factor(mode)` with the
factor falling back to road (`0.080`) for unknown modes,
`baseline_kg` always computed with the air factor (`0.500`), and
`savings_kg = max 0 (baseline - emission)`; in particular
`calculate_manual 100 1000 "rail" = (2, 50, 48)`. -/
theorem C8_calculate_manual :
    (∀ (d w : ℚ) (m : String),
      (calculate_manual d w m).1 = d * (w / 1000) * emission_factor m ∧
      (calculate_manual d w m).2.1 = d * (w / 1000) * (1 / 2) ∧
      (calculate_manual d w m).2.2 =
        max 0 ((calculate_manual d w m).2.1 - (calculate_manual d w m).1)) ∧
    (∀ m : String, m ≠ "road" → m ≠ "rail" → m ≠ "air" → emission_factor m = 2 / 25) ∧
    calculate_manual 100 1000 "rail" = (2, 50, 48) := by
  refine ⟨?_, emission_factor_unknown, ?_⟩
  · intro d w m
    refine ⟨rfl, ?_, rfl⟩
    simp [calculate_manual, calculate_emissions, emission_factor_air]
  · norm_num [calculate_manual, calculate_emissions, emission_factor_rail,
      emission_factor_air, Prod.ext_iff, max_eq_right]

/-- Witness for C8: an unknown mode string falls back to the road
factor. -/
theorem C8_calculate_manual_witness : emission_factor "boat" = 2 / 25 :=
  C8_calculate_manual.2.1 "boat" (by decide) (by decide) (by decide)

/-- C9 (amended): `/calculate-manual` coerces a missing body and
missing `distance`/`weight`/`mode` fields to the defaults `0.0` /
`"road"`, and accepts any numeric fields without validation; but a
non-numeric field value makes `float()` raise, so such a request
fails with an unhandled exception instead of being coerced. -/
theorem C9_manual_coercion :
    calculate_manual_endpoint none = .ok (calculate_manual 0 0 "road") ∧
    (∀ m : Option String,
      calculate_manual_endpoint (some ⟨none, none, m⟩) =
        .ok (calculate_manual 0 0 (m.getD "road"))) ∧
    (∀ (d w : ℚ) (m : Option String),
      calculate_manual_endpoint (some ⟨some (.num d), some (.num w), m⟩) =
        .ok (calculate_manual d w (m.getD "road"))) :=
  ⟨rfl, fun _ => rfl, fun _ _ _ => rfl⟩

/-- Counterexample for C9 as stated: a malformed (non-numeric string)
`distance` field is not coerced to `0.0` — `float()` raises
`ValueError` and the request fails. -/
theorem C9_counterexample :
    calculate_manual_endpoint (some ⟨some (.str none), none, none⟩) = .error "ValueError" :=
  rfl

/-- C10: savings reported by the service are never negative:
`/calculate-manual` returns `savings_kg = max 0 (baseline - emission)`
(zero when the chosen mode is `"air"`), and every successful
`/optimize` response has `stats.saved ≥ 0`. -/
theorem C10_savings_nonneg :
    (∀ (d w : ℚ) (m : String), 0 ≤ (calculate_manual d w m).2.2) ∧
    (∀ d w : ℚ, (calculate_manual d w "air").2.2 = 0) ∧
    (∀ (locs path : List Location) (stats : RouteStats),
      optimize_route locs = .ok (path, stats) → 0 ≤ stats.saved) := by
  refine ⟨?_, ?_, ?_⟩
  · intro d w m
    exact le_max_left 0 _
  · intro d w
    simp [calculate_manual]
  · intro locs path stats h
    unfold optimize_route at h
    by_cases hlen : locs.length < 2
    · rw [if_pos hlen] at h
      exact absurd h (by simp)
    · rw [if_neg hlen] at h
      cases locs with
      | nil => exact absurd h (by simp)
      | cons c rest =>
        simp only [Except.ok.injEq, Prod.mk.injEq] at h
        obtain ⟨hp, hs⟩ := h
        subst hs
        exact le_max_left 0 _

/-- Witness for C10: the successful `/optimize` response for
`[(0,0), (0,1)]` has non-negative savings. -/
theorem C10_savings_nonneg_witness :
    (0 : ℝ) ≤ (RouteStats.mk 111 (222 / 25) (3219 / 250) (999 / 250) (900 / 29)).saved :=
  C10_savings_nonneg.2.2 [⟨0, 0⟩, ⟨0, 1⟩] [⟨0, 0⟩, ⟨0, 1⟩] _ optimize_route_eval_01
